import Mathlib

/-!
Verification of the particle-system simulation core (`ParticleSystem` in the
repository, together with the parametric shape generators and palettes from
its utils module). The JavaScript source is shallowly embedded: the flat
Float32 buffers become functions `ℕ → Vec3` (the per-tick loop acts
independently on each index), JS numbers become real numbers, and every call
to `Math.random()` is replaced by an explicitly injected draw, so properties
can be proved for all values the generator may return.
-/

namespace PartSys

noncomputable section

/-- A 3D vector of reals, modelling an (x, y, z) triple stored in one of the
flat buffers (positions, velocities, colors, targets). -/
structure Vec3 where
  x : ℝ
  y : ℝ
  z : ℝ

instance : Add Vec3 := ⟨fun a b => ⟨a.x + b.x, a.y + b.y, a.z + b.z⟩⟩

instance : Sub Vec3 := ⟨fun a b => ⟨a.x - b.x, a.y - b.y, a.z - b.z⟩⟩

instance : SMul ℝ Vec3 := ⟨fun r a => ⟨r * a.x, r * a.y, r * a.z⟩⟩

theorem vec3_add_def (a b : Vec3) : a + b = ⟨a.x + b.x, a.y + b.y, a.z + b.z⟩ := rfl

theorem vec3_sub_def (a b : Vec3) : a - b = ⟨a.x - b.x, a.y - b.y, a.z - b.z⟩ := rfl

theorem vec3_smul_def (r : ℝ) (a : Vec3) : r • a = ⟨r * a.x, r * a.y, r * a.z⟩ := rfl

/-- Euclidean magnitude of a vector. -/
def norm3 (a : Vec3) : ℝ := Real.sqrt (a.x ^ 2 + a.y ^ 2 + a.z ^ 2)

/-- `Math.cbrt` on the nonnegative reals that the source feeds it
(`Math.random()` results). -/
def cbrt (t : ℝ) : ℝ := t ^ ((1 : ℝ) / 3)

/-! ## Parametric shape generators (utils module, `parametric`)

Each generator takes the two uniform samples `u, v` and a stream `rnd` of
the `Math.random()` draws the generator performs internally (draw 0 first). -/

def heartGen (u v : ℝ) (rnd : ℕ → ℝ) : Vec3 :=
  let phi := u * Real.pi * 2
  let scale := cbrt v
  let hx := 16 * (Real.sin phi) ^ 3 * scale
  let hy := (13 * Real.cos phi - 5 * Real.cos (2 * phi) - 2 * Real.cos (3 * phi)
      - Real.cos (4 * phi)) * scale
  let hz := (rnd 0 - 0.5) * 4 * scale
  ⟨hx * 0.45, hy * 0.45 + 2, hz⟩

def flowerGen (u v : ℝ) (_rnd : ℕ → ℝ) : Vec3 :=
  let phi := u * Real.pi * 2
  let theta := v * Real.pi
  let r := 10 * (1 + 0.6 * Real.sin (5 * phi) * Real.sin theta)
  ⟨r * Real.sin theta * Real.cos phi, r * Real.sin theta * Real.sin phi, r * Real.cos theta⟩

def saturnGen (u v : ℝ) (rnd : ℕ → ℝ) : Vec3 :=
  if v < 0.35 then
    let phi := u * Real.pi * 2
    let theta := (v / 0.35) * Real.pi
    let r := 8 * cbrt (rnd 0)
    ⟨r * Real.sin theta * Real.cos phi, r * Real.sin theta * Real.sin phi * 0.85,
      r * Real.cos phi * 0.4⟩
  else
    let angle := u * Real.pi * 2
    let ringR := 13 + (v - 0.35) * 28
    let ry := (rnd 0 - 0.5) * 0.4
    let rx := Real.cos angle * ringR
    let rz := Real.sin angle * ringR
    let tiltAngle := (0.44 : ℝ)
    ⟨rx, ry + rz * Real.sin tiltAngle, rz * Real.cos tiltAngle⟩

def fireworksGen (u v : ℝ) (rnd : ℕ → ℝ) : Vec3 :=
  let burst : ℝ := (⌊u * 5⌋ : ℤ)
  let cx := (burst - 2) * 10 + Real.sin (burst * 7.3) * 4
  let cy := Real.cos (burst * 3.1) * 6 + 4
  let cz := Real.sin (burst * 5.7) * 3
  let phi := Real.arccos (2 * v - 1)
  let theta := u * Real.pi * 2 * 12.5
  let r := rnd 0 * 6
  ⟨cx + r * Real.sin phi * Real.cos theta, cy + r * Real.sin phi * Real.sin theta,
    cz + r * Real.cos phi⟩

def galaxyGen (u v : ℝ) (rnd : ℕ → ℝ) : Vec3 :=
  let arms : ℤ := 3
  let arm : ℤ := ⌊u * 3 * 100⌋ % arms
  let armAngle := ((arm : ℝ) / 3) * Real.pi * 2
  let t := v * 30
  let angle := armAngle + t * 0.4
  let spread := 0.5 + t * 0.12
  ⟨t * Real.cos angle + (rnd 0 - 0.5) * spread * 3,
    (rnd 1 - 0.5) * (1.5 + t * 0.05),
    t * Real.sin angle + (rnd 2 - 0.5) * spread * 3⟩

def dnaGen (u v : ℝ) (rnd : ℕ → ℝ) : Vec3 :=
  let h := v * 50 - 25
  let angle := h * 0.5
  if u < 0.4 then
    ⟨Real.cos angle * 6, h, Real.sin angle * 6⟩
  else if u < 0.8 then
    ⟨Real.cos (angle + Real.pi) * 6, h, Real.sin (angle + Real.pi) * 6⟩
  else
    let lerp := rnd 0
    ⟨Real.cos angle * 6 * (1 - lerp) + Real.cos (angle + Real.pi) * 6 * lerp,
      h + (rnd 1 - 0.5) * 0.3,
      Real.sin angle * 6 * (1 - lerp) + Real.sin (angle + Real.pi) * 6 * lerp⟩

def starGen (u v : ℝ) (rnd : ℕ → ℝ) : Vec3 :=
  let points : ℝ := 5
  let angle := u * Real.pi * 2
  let segment := angle / (Real.pi / points)
  let segFloor : ℤ := ⌊segment⌋
  let segFrac := segment - (segFloor : ℝ)
  let outerR : ℝ := 15
  let innerR : ℝ := 6
  let r1 := if segFloor % 2 = 0 then outerR else innerR
  let r2 := if segFloor % 2 = 0 then innerR else outerR
  let maxR := r1 + (r2 - r1) * segFrac
  let r := Real.sqrt v * maxR
  ⟨r * Real.cos angle, r * Real.sin angle, (rnd 0 - 0.5) * 2⟩

def tornadoGen (u v : ℝ) (_rnd : ℕ → ℝ) : Vec3 :=
  let angle := u * Real.pi * 2 * 10
  let h := v * 40 - 20
  let r := 2 + (v * v) * 18
  ⟨Real.cos (angle + h * 0.2) * r, h, Real.sin (angle + h * 0.2) * r⟩

def sphereGen (u v : ℝ) (rnd : ℕ → ℝ) : Vec3 :=
  let phi := u * Real.pi * 2
  let theta := v * Real.pi
  let r := 15 * cbrt (rnd 0)
  ⟨r * Real.sin theta * Real.cos phi, r * Real.sin theta * Real.sin phi, r * Real.cos theta⟩

/-- The own properties of the `parametric` object literal: shape name to
generator, `none` when the name is not an own key. A JavaScript lookup
`parametric[templateName]` additionally sees the members every plain object
inherits from Object.prototype (`constructor`, `toString`, ...), which are
truthy but are not generators; that full lookup semantics, as tested by the
`if (!parametric[templateName]) return` guard, is modelled by
`setTemplateJs` below. -/
def parametric (name : String) : Option (ℝ → ℝ → (ℕ → ℝ) → Vec3) :=
  if name = "heart" then some heartGen
  else if name = "flower" then some flowerGen
  else if name = "saturn" then some saturnGen
  else if name = "fireworks" then some fireworksGen
  else if name = "galaxy" then some galaxyGen
  else if name = "dna" then some dnaGen
  else if name = "star" then some starGen
  else if name = "tornado" then some tornadoGen
  else if name = "sphere" then some sphereGen
  else none

/-- The 9 recognized shape names, in source order. -/
def shapeNames : List String :=
  ["heart", "flower", "saturn", "fireworks", "galaxy", "dna", "star", "tornado", "sphere"]

theorem parametric_none_of_unknown (name : String) (h : name ∉ shapeNames) :
    parametric name = none := by
  simp only [shapeNames, List.mem_cons, List.not_mem_nil, or_false] at h
  push_neg at h
  obtain ⟨h1, h2, h3, h4, h5, h6, h7, h8, h9⟩ := h
  simp [parametric, h1, h2, h3, h4, h5, h6, h7, h8, h9]

/-! ## Color palettes (utils module, `SHAPE_COLORS`) -/

def heartColors : List Vec3 :=
  [⟨1.0, 0.15, 0.35⟩, ⟨1.0, 0.35, 0.55⟩, ⟨0.85, 0.05, 0.25⟩, ⟨1.0, 0.55, 0.65⟩]

def flowerColors : List Vec3 :=
  [⟨1.0, 0.75, 0.15⟩, ⟨0.2, 0.85, 0.35⟩, ⟨1.0, 0.45, 0.65⟩, ⟨0.95, 0.55, 0.1⟩]

def saturnColors : List Vec3 :=
  [⟨0.55, 0.25, 0.9⟩, ⟨0.9, 0.7, 0.2⟩, ⟨0.75, 0.45, 1.0⟩, ⟨0.3, 0.15, 0.7⟩]

def fireworksColors : List Vec3 :=
  [⟨1.0, 0.85, 0.1⟩, ⟨1.0, 0.25, 0.1⟩, ⟨0.15, 1.0, 0.35⟩, ⟨0.25, 0.6, 1.0⟩]

def galaxyColors : List Vec3 :=
  [⟨0.1, 0.7, 1.0⟩, ⟨0.85, 0.3, 1.0⟩, ⟨0.2, 0.4, 1.0⟩, ⟨0.95, 0.9, 0.75⟩]

def dnaColors : List Vec3 :=
  [⟨0, 0.9, 0.8⟩, ⟨0, 0.6, 1.0⟩, ⟨0.3, 1.0, 0.5⟩, ⟨0.1, 0.8, 0.9⟩]

def starColors : List Vec3 :=
  [⟨1.0, 0.95, 0.5⟩, ⟨1.0, 0.8, 0.2⟩, ⟨1.0, 0.65, 0.0⟩, ⟨1.0, 1.0, 0.85⟩]

def tornadoColors : List Vec3 :=
  [⟨0.6, 0.6, 0.7⟩, ⟨0.4, 0.45, 0.55⟩, ⟨0.8, 0.85, 0.9⟩, ⟨0.35, 0.4, 0.5⟩]

def sphereColors : List Vec3 :=
  [⟨0.3, 0.5, 1.0⟩, ⟨0.4, 0.65, 1.0⟩, ⟨0.5, 0.75, 1.0⟩, ⟨0.2, 0.4, 0.9⟩]

/-- The own properties of the `SHAPE_COLORS` object literal: shape name to
palette, `none` when the name is not an own key. For an Object.prototype
member name the JS lookup `SHAPE_COLORS[templateName]` yields truthy
non-array junk, so the `|| SHAPE_COLORS.sphere` fallback does not fire and
the later `palette[i % palette.length][0]` access throws; that error path is
only reachable through an inherited name and is modelled by
`setTemplateJs`. Every name reaching `setTemplate`'s palette line in this
development has an own generator, hence also an own palette, so the `getD
sphereColors` fallback here coincides with the JS `||`. -/
def shapeColorsOf (name : String) : Option (List Vec3) :=
  if name = "heart" then some heartColors
  else if name = "flower" then some flowerColors
  else if name = "saturn" then some saturnColors
  else if name = "fireworks" then some fireworksColors
  else if name = "galaxy" then some galaxyColors
  else if name = "dna" then some dnaColors
  else if name = "star" then some starColors
  else if name = "tornado" then some tornadoColors
  else if name = "sphere" then some sphereColors
  else none

/-- `SHAPE_COLORS[templateName] || SHAPE_COLORS.sphere` as used by
`setTemplate` and `cycleColors`. -/
def paletteOf (name : String) : List Vec3 := (shapeColorsOf name).getD sphereColors

/-! ## Simulation state and operations (`ParticleSystem`) -/

/-- All the `Math.random()` draws one particle consumes during one
`setTemplate` call, in source order: the shape samples `u`, `v`, the draws
`rnd` made inside the generator, the positional jitter draws `jx`, `jy`,
`jz`, and the color-variation draws `cr`, `cg`, `cb`. Modelling the random
source as an explicit input lets the theorems quantify over every value it
can produce (each draw lies in `[0, 1)`). -/
structure TemplateRand where
  u : ℝ
  v : ℝ
  rnd : ℕ → ℝ
  jx : ℝ
  jy : ℝ
  jz : ℝ
  cr : ℝ
  cg : ℝ
  cb : ℝ

/-- The mutable state of one `ParticleSystem`. The flat Float32 buffers of
length `count` (or `3·count`) are modelled as total functions on the particle
index; the per-particle loop writes each index independently. `uExpansion`
and `time` are the shader uniforms `uExpansion` and `uTime` (the latter
always equals `this.time`). -/
structure SimState where
  currentTemplate : String
  time : ℝ
  colorPaletteIndex : ℕ
  uExpansion : ℝ
  positions : ℕ → Vec3
  velocities : ℕ → Vec3
  colors : ℕ → Vec3
  sizes : ℕ → ℝ
  targetPositions : ℕ → Vec3
  targetColors : ℕ → Vec3

/-- `ParticleSystem.setTemplate`. Unknown names fail the
`parametric[templateName]` test and return the state unchanged; recognized
names re-seed both target buffers and set `currentTemplate`. The UI call
`showShapeIndicator` touches only the DOM and is out of scope. -/
def setTemplate (name : String) (rand : ℕ → TemplateRand) (s : SimState) : SimState :=
  match parametric name with
  | none => s
  | some gen =>
    let palette := (shapeColorsOf name).getD sphereColors
    { s with
      currentTemplate := name
      targetPositions := fun i =>
        let r := rand i
        let p := gen r.u r.v r.rnd
        ⟨p.x + (r.jx - 0.5) * 0.3, p.y + (r.jy - 0.5) * 0.3, p.z + (r.jz - 0.5) * 0.3⟩
      targetColors := fun i =>
        let r := rand i
        let c := palette.getD (i % palette.length) ⟨0, 0, 0⟩
        ⟨min 1 (c.x + (r.cr - 0.5) * 0.1),
          min 1 (c.y + (r.cg - 0.5) * 0.1),
          min 1 (c.z + (r.cb - 0.5) * 0.1)⟩ }

/-- The gesture snapshot consumed by `update`. -/
structure Gestures where
  isFist : Bool
  isPinching : Bool
  isOpen : Bool
  isRock : Bool
  isPeace : Bool
  isPointing : Bool
  handDetected : Bool
  handSpread : ℝ
  pointer : Option (ℝ × ℝ)

/-- The `{}` default `update` substitutes for a missing snapshot: every flag
falsy, no pointer. -/
def emptyGestures : Gestures :=
  { isFist := false, isPinching := false, isOpen := false, isRock := false
    isPeace := false, isPointing := false, handDetected := false
    handSpread := 0, pointer := none }

/-- The gesture-to-template chain at the top of `update`. -/
def gestureTemplateStep (rand : ℕ → TemplateRand) (g : Gestures) (s : SimState) : SimState :=
  if g.isFist then
    (if s.currentTemplate ≠ "heart" then setTemplate "heart" rand s else s)
  else if g.isPinching then
    (if s.currentTemplate ≠ "dna" then setTemplate "dna" rand s else s)
  else if g.isOpen then
    (if s.currentTemplate ≠ "galaxy" then setTemplate "galaxy" rand s else s)
  else if g.isRock then
    (if s.currentTemplate ≠ "saturn" then setTemplate "saturn" rand s else s)
  else if g.isPeace then
    (if s.currentTemplate ≠ "flower" then setTemplate "flower" rand s else s)
  else if g.isPointing then
    (if s.currentTemplate ≠ "fireworks" then setTemplate "fireworks" rand s else s)
  else s

/-- The target-seeking step of the per-particle loop. The source guards on
`!isNaN(tx)`; an invalid (NaN) target is modelled as `none`, in which case
the velocity is left untouched. -/
def seekStep (dt : ℝ) (target : Option Vec3) (p v : Vec3) : Vec3 :=
  match target with
  | none => v
  | some t =>
    ⟨v.x + (t.x - p.x) * 2.5 * dt,
      v.y + (t.y - p.y) * 2.5 * dt,
      v.z + (t.z - p.z) * 2.5 * dt⟩

/-- Squared distance from a particle to the repulsion point `(bx, bpy, 0)`
(the source compares `z` to 0). -/
def distSqTo (bx bpy : ℝ) (p : Vec3) : ℝ :=
  (bx - p.x) * (bx - p.x) + (bpy - p.y) * (bpy - p.y) + (0 - p.z) * (0 - p.z)

/-- The guard of the repulsion branch: `distSq < 50 && distSq > 0.01`. -/
def repulsionActive (bx bpy : ℝ) (p : Vec3) : Prop :=
  distSqTo bx bpy p < 50 ∧ distSqTo bx bpy p > 0.01

/-- The repulsion / color part of the per-particle loop: one branch applies
the repulsion force and boosts the current color; the other leaves the
velocity alone and blends the color toward the target color. Returns the
(velocity, color) pair. -/
def interactStep (dt bx bpy : ℝ) (tcol : Vec3) (p v c : Vec3) : Vec3 × Vec3 :=
  let dx := bx - p.x
  let dy := bpy - p.y
  let dz := 0 - p.z
  let distSq := dx * dx + dy * dy + dz * dz
  if distSq < 50 ∧ distSq > 0.01 then
    let dist := Real.sqrt distSq
    let force := (7 - dist) * 3.0
    (⟨v.x - dx / dist * force * dt * 6,
        v.y - dy / dist * force * dt * 6,
        v.z - dz / dist * force * dt * 6⟩,
      ⟨min 1 (c.x + 0.15), min 1 (c.y + 0.15), min 1 (c.z + 0.15)⟩)
  else
    (v, ⟨c.x + (tcol.x - c.x) * 0.025,
      c.y + (tcol.y - c.y) * 0.025,
      c.z + (tcol.z - c.z) * 0.025⟩)

/-- The whole body of the per-particle loop in `update`: seek, repulsion /
color, damping by 0.88, explicit Euler integration. Returns the new
(position, velocity, color). -/
def tickParticle (dt bx bpy : ℝ) (target : Option Vec3) (tcol : Vec3)
    (p v c : Vec3) : Vec3 × Vec3 × Vec3 :=
  let v1 := seekStep dt target p v
  let vc := interactStep dt bx bpy tcol p v1 c
  let v2 : Vec3 := ⟨vc.1.x * 0.88, vc.1.y * 0.88, vc.1.z * 0.88⟩
  let p2 : Vec3 := ⟨p.x + v2.x * dt, p.y + v2.y * dt, p.z + v2.z * dt⟩
  (p2, v2, vc.2)

/-- The x coordinate of the pointer-interaction position: `pointer.x * 40`
when a hand and pointer are present, else the 9999 sentinel. -/
def pointerBx (g : Gestures) : ℝ :=
  if g.handDetected && g.pointer.isSome then (g.pointer.getD (0, 0)).1 * 40 else 9999

/-- The y coordinate of the pointer-interaction position: `pointer.y * 20`
when a hand and pointer are present, else the 9999 sentinel. -/
def pointerBy (g : Gestures) : ℝ :=
  if g.handDetected && g.pointer.isSome then (g.pointer.getD (0, 0)).2 * 20 else 9999

/-- `ParticleSystem.update(dt, gestures)`. A missing snapshot becomes
`emptyGestures`; the gesture chain may call `setTemplate`; the expansion
uniform is smoothed; the pointer becomes the repulsion point (or the 9999
sentinel); every particle runs `tickParticle`; sizes are recomputed from the
advanced clock. The target buffers never contain NaN in this model, so the
per-particle seek target is always passed as `some`. -/
def update (dt : ℝ) (gOpt : Option Gestures) (rand : ℕ → TemplateRand)
    (s : SimState) : SimState :=
  let g := gOpt.getD emptyGestures
  let s1 := { s with time := s.time + dt }
  let s2 := gestureTemplateStep rand g s1
  let targetExpansion : ℝ := if g.handDetected then 0.7 + g.handSpread * 0.8 else 1.0
  let bx : ℝ := pointerBx g
  let bpy : ℝ := pointerBy g
  { s2 with
    uExpansion := s2.uExpansion + (targetExpansion - s2.uExpansion) * 0.03
    positions := fun i =>
      (tickParticle dt bx bpy (some (s2.targetPositions i)) (s2.targetColors i)
        (s2.positions i) (s2.velocities i) (s2.colors i)).1
    velocities := fun i =>
      (tickParticle dt bx bpy (some (s2.targetPositions i)) (s2.targetColors i)
        (s2.positions i) (s2.velocities i) (s2.colors i)).2.1
    colors := fun i =>
      (tickParticle dt bx bpy (some (s2.targetPositions i)) (s2.targetColors i)
        (s2.positions i) (s2.velocities i) (s2.colors i)).2.2
    sizes := fun i => 0.3 + 0.4 * Real.sin (s2.time * 1.5 + (i : ℝ) * 0.01) }

/-- `ParticleSystem.cycleColors`. -/
def cycleColors (s : SimState) : SimState :=
  let palette := (shapeColorsOf s.currentTemplate).getD sphereColors
  { s with
    targetColors := fun i =>
      let c := palette.getD ((i + s.colorPaletteIndex) % palette.length) ⟨0, 0, 0⟩
      let hueShift := (s.colorPaletteIndex : ℝ) * 0.25
      ⟨min 1 (c.x * Real.cos hueShift + c.z * Real.sin hueShift),
        c.y,
        min 1 (c.z * Real.cos hueShift - c.x * Real.sin hueShift)⟩
    colorPaletteIndex := s.colorPaletteIndex + 1 }

/-- Iterating the per-particle loop body over successive ticks with a fixed
target, target color and repulsion point. -/
def particleSteps (dt bx bpy : ℝ) (target : Option Vec3) (tcol : Vec3)
    (st : Vec3 × Vec3 × Vec3) : ℕ → Vec3 × Vec3 × Vec3
  | 0 => st
  | n + 1 =>
    let prev := particleSteps dt bx bpy target tcol st n
    tickParticle dt bx bpy target tcol prev.1 prev.2.1 prev.2.2

/-! ## Concrete sample data used by witnesses and counterexamples -/

/-- A random source all of whose draws are 0 (a value `Math.random()` can
return). -/
def zeroRand : ℕ → TemplateRand := fun _ =>
  { u := 0, v := 0, rnd := fun _ => 0, jx := 0, jy := 0, jz := 0, cr := 0, cg := 0, cb := 0 }

/-- A random source all of whose draws are 0.5. -/
def halfRand : ℕ → TemplateRand := fun _ =>
  { u := 0.5, v := 0.5, rnd := fun _ => 0.5, jx := 0.5, jy := 0.5, jz := 0.5
    cr := 0.5, cg := 0.5, cb := 0.5 }

/-- A concrete state mirroring the constructor's deterministic parts:
template `galaxy`, initial color `(0.2, 0.5, 1.0)`, zero velocities. -/
def initState : SimState :=
  { currentTemplate := "galaxy", time := 0, colorPaletteIndex := 0, uExpansion := 1
    positions := fun _ => ⟨0, 0, 0⟩, velocities := fun _ => ⟨0, 0, 0⟩
    colors := fun _ => ⟨0.2, 0.5, 1.0⟩, sizes := fun _ => 0
    targetPositions := fun _ => ⟨0, 0, 0⟩, targetColors := fun _ => ⟨0, 0, 0⟩ }

/-! ## Full JavaScript lookup semantics for `setTemplate` -/

/-- The member names every plain JavaScript object literal inherits from
Object.prototype. A lookup `obj[name]` on `parametric` or `SHAPE_COLORS` is
truthy for each of these even though the name is not an own key. -/
def objectProtoNames : List String :=
  ["constructor", "hasOwnProperty", "isPrototypeOf", "propertyIsEnumerable",
    "toLocaleString", "toString", "valueOf", "__defineGetter__",
    "__defineSetter__", "__lookupGetter__", "__lookupSetter__", "__proto__"]

/-- Result of one `ParticleSystem.setTemplate` call under full JavaScript
property-lookup semantics: either the call completes with a new state, or it
throws; `thrown err tmpl` records the error name together with the value
`currentTemplate` holds at the throw point (the assignment at part_000:111
happens before the failing loop iteration, so the mutation persists on the
object). The partially written first target entry in some of the inherited-
name traces is not recorded in the outcome. -/
inductive SetTemplateOutcome where
  | ok : SimState → SetTemplateOutcome
  | thrown : String → String → SetTemplateOutcome

/-- `ParticleSystem.setTemplate` with the guard evaluated the way JavaScript
does: `parametric[templateName]` is truthy for the 9 own generator keys and
for Object.prototype member names. With an own generator the call proceeds
normally (`setTemplate`). With an inherited member name the guard does not
return early: `currentTemplate` is assigned the unrecognized name and the
first loop iteration then throws a TypeError — either immediately at
`parametric[templateName](u, v, dummy)` (a non-callable like `__proto__`, or
`__defineGetter__` rejecting its numeric argument) or at
`palette[i % palette.length][0]` (the truthy inherited `SHAPE_COLORS`
lookup suppresses the `|| SHAPE_COLORS.sphere` fallback and indexing the
non-array junk gives `undefined`, whose `[0]` access throws). Only with a
falsy (absent) lookup is the call the silent no-op. -/
def setTemplateJs (name : String) (rand : ℕ → TemplateRand) (s : SimState) :
    SetTemplateOutcome :=
  if name ∈ shapeNames ∨ name ∈ objectProtoNames then
    match parametric name with
    | some _ => .ok (setTemplate name rand s)
    | none => .thrown "TypeError" name
  else
    .ok s

/-! ## Helper lemmas -/

theorem parametric_heart_eq : parametric "heart" = some heartGen := by rfl

theorem parametric_dna_eq : parametric "dna" = some dnaGen := by rfl

theorem parametric_galaxy_eq : parametric "galaxy" = some galaxyGen := by rfl

theorem parametric_saturn_eq : parametric "saturn" = some saturnGen := by rfl

theorem parametric_flower_eq : parametric "flower" = some flowerGen := by rfl

theorem parametric_fireworks_eq : parametric "fireworks" = some fireworksGen := by rfl

theorem setTemplate_known_template (name : String) (gen : ℝ → ℝ → (ℕ → ℝ) → Vec3)
    (rand : ℕ → TemplateRand) (s : SimState) (h : parametric name = some gen) :
    (setTemplate name rand s).currentTemplate = name := by
  unfold setTemplate
  rw [h]

theorem gestureStep_fist (rand : ℕ → TemplateRand) (g : Gestures) (s : SimState)
    (hf : g.isFist = true) :
    (gestureTemplateStep rand g s).currentTemplate = "heart" := by
  unfold gestureTemplateStep
  rw [hf]
  by_cases h : s.currentTemplate = "heart"
  · simp [h]
  · simp [h, setTemplate_known_template _ _ rand s parametric_heart_eq]

theorem gestureStep_pinch (rand : ℕ → TemplateRand) (g : Gestures) (s : SimState)
    (h1 : g.isFist = false) (h2 : g.isPinching = true) :
    (gestureTemplateStep rand g s).currentTemplate = "dna" := by
  unfold gestureTemplateStep
  rw [h1, h2]
  by_cases h : s.currentTemplate = "dna"
  · simp [h]
  · simp [h, setTemplate_known_template _ _ rand s parametric_dna_eq]

theorem gestureStep_open (rand : ℕ → TemplateRand) (g : Gestures) (s : SimState)
    (h1 : g.isFist = false) (h2 : g.isPinching = false) (h3 : g.isOpen = true) :
    (gestureTemplateStep rand g s).currentTemplate = "galaxy" := by
  unfold gestureTemplateStep
  rw [h1, h2, h3]
  by_cases h : s.currentTemplate = "galaxy"
  · simp [h]
  · simp [h, setTemplate_known_template _ _ rand s parametric_galaxy_eq]

theorem gestureStep_rock (rand : ℕ → TemplateRand) (g : Gestures) (s : SimState)
    (h1 : g.isFist = false) (h2 : g.isPinching = false) (h3 : g.isOpen = false)
    (h4 : g.isRock = true) :
    (gestureTemplateStep rand g s).currentTemplate = "saturn" := by
  unfold gestureTemplateStep
  rw [h1, h2, h3, h4]
  by_cases h : s.currentTemplate = "saturn"
  · simp [h]
  · simp [h, setTemplate_known_template _ _ rand s parametric_saturn_eq]

theorem gestureStep_peace (rand : ℕ → TemplateRand) (g : Gestures) (s : SimState)
    (h1 : g.isFist = false) (h2 : g.isPinching = false) (h3 : g.isOpen = false)
    (h4 : g.isRock = false) (h5 : g.isPeace = true) :
    (gestureTemplateStep rand g s).currentTemplate = "flower" := by
  unfold gestureTemplateStep
  rw [h1, h2, h3, h4, h5]
  by_cases h : s.currentTemplate = "flower"
  · simp [h]
  · simp [h, setTemplate_known_template _ _ rand s parametric_flower_eq]

theorem gestureStep_point (rand : ℕ → TemplateRand) (g : Gestures) (s : SimState)
    (h1 : g.isFist = false) (h2 : g.isPinching = false) (h3 : g.isOpen = false)
    (h4 : g.isRock = false) (h5 : g.isPeace = false) (h6 : g.isPointing = true) :
    (gestureTemplateStep rand g s).currentTemplate = "fireworks" := by
  unfold gestureTemplateStep
  rw [h1, h2, h3, h4, h5, h6]
  by_cases h : s.currentTemplate = "fireworks"
  · simp [h]
  · simp [h, setTemplate_known_template _ _ rand s parametric_fireworks_eq]

theorem gestureStep_no_flags (rand : ℕ → TemplateRand) (g : Gestures) (s : SimState)
    (h1 : g.isFist = false) (h2 : g.isPinching = false) (h3 : g.isOpen = false)
    (h4 : g.isRock = false) (h5 : g.isPeace = false) (h6 : g.isPointing = false) :
    gestureTemplateStep rand g s = s := by
  simp [gestureTemplateStep, h1, h2, h3, h4, h5, h6]

theorem update_template_eq_step (dt : ℝ) (g : Gestures)
    (rand : ℕ → TemplateRand) (s : SimState) :
    (update dt (some g) rand s).currentTemplate =
      (gestureTemplateStep rand g { s with time := s.time + dt }).currentTemplate := rfl

theorem update_template_eq_step_none (dt : ℝ) (rand : ℕ → TemplateRand) (s : SimState) :
    (update dt none rand s).currentTemplate =
      (gestureTemplateStep rand emptyGestures
        { s with time := s.time + dt }).currentTemplate := rfl

/-! ## Claim theorems -/

/-- Counterexample to C3 as stated: "constructor" is not one of the 9
recognized shape names, yet `setTemplate("constructor")` is not a silent
no-op — the JavaScript lookup `parametric["constructor"]` is truthy through
Object.prototype, so the guard does not return, `currentTemplate` is set to
"constructor" and the call throws a TypeError instead of completing. -/
theorem setTemplate_proto_counterexample :
    "constructor" ∉ shapeNames ∧
    setTemplateJs "constructor" zeroRand initState =
      SetTemplateOutcome.thrown "TypeError" "constructor" ∧
    ∀ s' : SimState, setTemplateJs "constructor" zeroRand initState ≠
      SetTemplateOutcome.ok s' := by
  have hns : "constructor" ∉ shapeNames := by decide
  have hmem : "constructor" ∈ objectProtoNames := by decide
  have hmain : setTemplateJs "constructor" zeroRand initState =
      SetTemplateOutcome.thrown "TypeError" "constructor" := by
    unfold setTemplateJs
    rw [if_pos (Or.inr hmem), parametric_none_of_unknown _ hns]
  refine ⟨hns, hmain, ?_⟩
  intro s' hcon
  rw [hmain] at hcon
  exact SetTemplateOutcome.noConfusion hcon

/-- C3 (amended): for every string that is neither one of the 9 recognized
shape names nor a member name inherited from Object.prototype, `setTemplate`
is a silent no-op — the lookup is falsy, the state (in particular
`currentTemplate`, `targetPositions` and `targetColors`) is exactly
unchanged, and no error is raised. For an inherited member name the guard
does not fire: `currentTemplate` is assigned the unrecognized name and the
call throws a TypeError. -/
theorem setTemplate_unknown_guard (name : String) (rand : ℕ → TemplateRand)
    (s : SimState) (h : name ∉ shapeNames) :
    (name ∉ objectProtoNames →
      setTemplateJs name rand s = SetTemplateOutcome.ok s) ∧
    (name ∈ objectProtoNames →
      setTemplateJs name rand s = SetTemplateOutcome.thrown "TypeError" name) := by
  constructor
  · intro h2
    unfold setTemplateJs
    rw [if_neg (not_or.mpr ⟨h, h2⟩)]
  · intro h2
    unfold setTemplateJs
    rw [if_pos (Or.inr h2), parametric_none_of_unknown _ h]

/-- Witness for C3's amended statement: "cube" (falsy lookup) is a silent
no-op while "toString" (inherited, truthy) mutates the template and
throws. -/
theorem setTemplate_unknown_guard_witness :
    ("cube" ∉ shapeNames ∧ "cube" ∉ objectProtoNames ∧
      "toString" ∉ shapeNames ∧ "toString" ∈ objectProtoNames) ∧
    setTemplateJs "cube" zeroRand initState = SetTemplateOutcome.ok initState ∧
    setTemplateJs "toString" zeroRand initState =
      SetTemplateOutcome.thrown "TypeError" "toString" :=
  ⟨⟨by decide, by decide, by decide, by decide⟩,
    (setTemplate_unknown_guard "cube" zeroRand initState (by decide)).1 (by decide),
    (setTemplate_unknown_guard "toString" zeroRand initState (by decide)).2 (by decide)⟩

/-- C5: template selection in `update` follows the fixed priority order
fist > pinching > open > rock > peace > pointing with the fixed mapping
fist→heart, pinching→dna, open→galaxy, rock→saturn, peace→flower,
pointing→fireworks; a set higher-priority flag makes the lower ones
irrelevant, and with no flag set (or no snapshot at all) the active template
is unchanged. -/
theorem gesture_template_priority (dt : ℝ) (g : Gestures)
    (rand : ℕ → TemplateRand) (s : SimState) :
    ((update dt none rand s).currentTemplate = s.currentTemplate) ∧
    (g.isFist = true → (update dt (some g) rand s).currentTemplate = "heart") ∧
    (g.isFist = false → g.isPinching = true →
      (update dt (some g) rand s).currentTemplate = "dna") ∧
    (g.isFist = false → g.isPinching = false → g.isOpen = true →
      (update dt (some g) rand s).currentTemplate = "galaxy") ∧
    (g.isFist = false → g.isPinching = false → g.isOpen = false → g.isRock = true →
      (update dt (some g) rand s).currentTemplate = "saturn") ∧
    (g.isFist = false → g.isPinching = false → g.isOpen = false → g.isRock = false →
      g.isPeace = true → (update dt (some g) rand s).currentTemplate = "flower") ∧
    (g.isFist = false → g.isPinching = false → g.isOpen = false → g.isRock = false →
      g.isPeace = false → g.isPointing = true →
      (update dt (some g) rand s).currentTemplate = "fireworks") ∧
    (g.isFist = false → g.isPinching = false → g.isOpen = false → g.isRock = false →
      g.isPeace = false → g.isPointing = false →
      (update dt (some g) rand s).currentTemplate = s.currentTemplate) := by
  refine ⟨?_, ?_, ?_, ?_, ?_, ?_, ?_, ?_⟩
  · rw [update_template_eq_step_none]
    rw [gestureStep_no_flags rand _ _ rfl rfl rfl rfl rfl rfl]
  · intro hf
    rw [update_template_eq_step]
    exact gestureStep_fist rand g _ hf
  · intro h1 h2
    rw [update_template_eq_step]
    exact gestureStep_pinch rand g _ h1 h2
  · intro h1 h2 h3
    rw [update_template_eq_step]
    exact gestureStep_open rand g _ h1 h2 h3
  · intro h1 h2 h3 h4
    rw [update_template_eq_step]
    exact gestureStep_rock rand g _ h1 h2 h3 h4
  · intro h1 h2 h3 h4 h5
    rw [update_template_eq_step]
    exact gestureStep_peace rand g _ h1 h2 h3 h4 h5
  · intro h1 h2 h3 h4 h5 h6
    rw [update_template_eq_step]
    exact gestureStep_point rand g _ h1 h2 h3 h4 h5 h6
  · intro h1 h2 h3 h4 h5 h6
    rw [update_template_eq_step]
    rw [gestureStep_no_flags rand _ _ h1 h2 h3 h4 h5 h6]

/-- Witness for C5: with both the fist and pinching flags raised the fist
mapping wins and the template becomes "heart". -/
theorem gesture_template_priority_witness :
    ({ emptyGestures with isFist := true, isPinching := true } : Gestures).isFist = true ∧
    (update 1 (some { emptyGestures with isFist := true, isPinching := true })
      zeroRand initState).currentTemplate = "heart" :=
  ⟨rfl, (gesture_template_priority 1 _ zeroRand initState).2.1 rfl⟩

/-- C10: a tick with an absent snapshot, or one with no gesture flag set,
leaves the active template and both target buffers exactly unchanged. -/
theorem tick_without_gesture_preserves_targets (dt : ℝ) (rand : ℕ → TemplateRand)
    (s : SimState) (g : Gestures)
    (h1 : g.isFist = false) (h2 : g.isPinching = false) (h3 : g.isOpen = false)
    (h4 : g.isRock = false) (h5 : g.isPeace = false) (h6 : g.isPointing = false) :
    ((update dt none rand s).currentTemplate = s.currentTemplate ∧
      (update dt none rand s).targetPositions = s.targetPositions ∧
      (update dt none rand s).targetColors = s.targetColors) ∧
    ((update dt (some g) rand s).currentTemplate = s.currentTemplate ∧
      (update dt (some g) rand s).targetPositions = s.targetPositions ∧
      (update dt (some g) rand s).targetColors = s.targetColors) := by
  have hnone : gestureTemplateStep rand emptyGestures { s with time := s.time + dt }
      = { s with time := s.time + dt } :=
    gestureStep_no_flags rand _ _ rfl rfl rfl rfl rfl rfl
  have hg : gestureTemplateStep rand g { s with time := s.time + dt }
      = { s with time := s.time + dt } :=
    gestureStep_no_flags rand _ _ h1 h2 h3 h4 h5 h6
  constructor
  · refine ⟨?_, ?_, ?_⟩
    · show (gestureTemplateStep rand emptyGestures
        { s with time := s.time + dt }).currentTemplate = _
      rw [hnone]
    · show (gestureTemplateStep rand emptyGestures
        { s with time := s.time + dt }).targetPositions = _
      rw [hnone]
    · show (gestureTemplateStep rand emptyGestures
        { s with time := s.time + dt }).targetColors = _
      rw [hnone]
  · refine ⟨?_, ?_, ?_⟩
    · show (gestureTemplateStep rand g
        { s with time := s.time + dt }).currentTemplate = _
      rw [hg]
    · show (gestureTemplateStep rand g
        { s with time := s.time + dt }).targetPositions = _
      rw [hg]
    · show (gestureTemplateStep rand g
        { s with time := s.time + dt }).targetColors = _
      rw [hg]

/-- Witness for C10: a snapshot with a detected hand but no gesture flag
leaves template and target buffers unchanged. -/
theorem tick_without_gesture_preserves_targets_witness :
    ({ emptyGestures with handDetected := true } : Gestures).isFist = false ∧
    (update 1 (some { emptyGestures with handDetected := true })
      zeroRand initState).targetColors = initState.targetColors :=
  ⟨rfl, ((tick_without_gesture_preserves_targets 1 zeroRand initState
    { emptyGestures with handDetected := true }
    rfl rfl rfl rfl rfl rfl).2).2.2⟩

/-- A state whose clock stands at π, used to exhibit a negative size. -/
def piState : SimState := { initState with time := Real.pi }

theorem update_sizes_eq (dt : ℝ) (gOpt : Option Gestures) (rand : ℕ → TemplateRand)
    (s : SimState) (i : ℕ) :
    (update dt gOpt rand s).sizes i =
      0.3 + 0.4 * Real.sin ((update dt gOpt rand s).time * 1.5 + (i : ℝ) * 0.01) := rfl

/-- C9: after every tick, each entry of the size buffer equals
`0.3 + 0.4·sin(elapsedTime·1.5 + i·0.01)`, hence lies in `[-0.1, 0.7]`; and
for some elapsed times the exposed size is negative (clock π: the tick writes
size −0.1 for particle 0). -/
theorem tick_size_formula (dt : ℝ) (gOpt : Option Gestures) (rand : ℕ → TemplateRand)
    (s : SimState) (i : ℕ) :
    (update dt gOpt rand s).sizes i =
      0.3 + 0.4 * Real.sin ((update dt gOpt rand s).time * 1.5 + (i : ℝ) * 0.01) ∧
    (-0.1 ≤ (update dt gOpt rand s).sizes i ∧ (update dt gOpt rand s).sizes i ≤ 0.7) ∧
    (update 0 none zeroRand piState).sizes 0 < 0 := by
  refine ⟨update_sizes_eq dt gOpt rand s i, ⟨?_, ?_⟩, ?_⟩
  · rw [update_sizes_eq]
    have h := Real.neg_one_le_sin ((update dt gOpt rand s).time * 1.5 + (i : ℝ) * 0.01)
    nlinarith
  · rw [update_sizes_eq]
    have h := Real.sin_le_one ((update dt gOpt rand s).time * 1.5 + (i : ℝ) * 0.01)
    nlinarith
  · have hs : (update 0 none zeroRand piState).sizes 0 =
        0.3 + 0.4 * Real.sin ((Real.pi + 0) * 1.5 + ((0 : ℕ) : ℝ) * 0.01) :=
      update_sizes_eq 0 none zeroRand piState 0
    rw [hs]
    have harg : (Real.pi + 0) * 1.5 + ((0 : ℕ) : ℝ) * 0.01 = Real.pi + Real.pi / 2 := by
      push_cast
      ring
    rw [harg, Real.sin_add, Real.sin_pi, Real.cos_pi, Real.sin_pi_div_two,
      Real.cos_pi_div_two]
    norm_num

/-- Damping: the velocity produced by one `tickParticle` with no valid target
and an inactive repulsion point is exactly the old velocity scaled by 0.88. -/
theorem tickParticle_velocity_coast (dt bx bpy : ℝ) (tcol : Vec3) (p v c : Vec3)
    (hrep : ¬ repulsionActive bx bpy p) :
    (tickParticle dt bx bpy none tcol p v c).2.1 = (0.88 : ℝ) • v := by
  rw [repulsionActive, distSqTo] at hrep
  simp only [tickParticle, interactStep, seekStep]
  rw [if_neg hrep]
  rw [vec3_smul_def]
  simp [mul_comm]

theorem norm3_smul (a : ℝ) (w : Vec3) : norm3 (a • w) = |a| * norm3 w := by
  rw [vec3_smul_def, norm3, norm3]
  have h : (a * w.x) ^ 2 + (a * w.y) ^ 2 + (a * w.z) ^ 2
      = a ^ 2 * (w.x ^ 2 + w.y ^ 2 + w.z ^ 2) := by ring
  rw [h, Real.sqrt_mul (sq_nonneg a), Real.sqrt_sq_eq_abs]

/-- C7: with zero net force — the seek skipped (no valid target) and the
repulsion branch inactive at every step — the velocity magnitude after k
iterated ticks is at most the initial magnitude times `0.88^k`. -/
theorem damping_geometric_decay (dt bx bpy : ℝ) (tcol : Vec3) (p v c : Vec3) (k : ℕ)
    (hrep : ∀ j < k, ¬ repulsionActive bx bpy
      (particleSteps dt bx bpy none tcol (p, v, c) j).1) :
    norm3 (particleSteps dt bx bpy none tcol (p, v, c) k).2.1 ≤ norm3 v * 0.88 ^ k := by
  induction k with
  | zero => simp [particleSteps]
  | succ n ih =>
    have hn : ∀ j < n, ¬ repulsionActive bx bpy
        (particleSteps dt bx bpy none tcol (p, v, c) j).1 :=
      fun j hj => hrep j (Nat.lt_succ_of_lt hj)
    have hstep : (particleSteps dt bx bpy none tcol (p, v, c) (n + 1)).2.1
        = (0.88 : ℝ) • (particleSteps dt bx bpy none tcol (p, v, c) n).2.1 := by
      show (tickParticle dt bx bpy none tcol _ _ _).2.1 = _
      exact tickParticle_velocity_coast dt bx bpy tcol _ _ _
        (hrep n (Nat.lt_succ_self n))
    rw [hstep, norm3_smul]
    have h88 : |(0.88 : ℝ)| = 0.88 := by
      rw [abs_of_nonneg]
      norm_num
    rw [h88, pow_succ]
    calc (0.88 : ℝ) * norm3 (particleSteps dt bx bpy none tcol (p, v, c) n).2.1
        ≤ 0.88 * (norm3 v * 0.88 ^ n) := by
          have := ih hn
          nlinarith [this]
      _ = norm3 v * (0.88 ^ n * 0.88) := by ring

/-- Witness for C7 at one step from velocity (1,0,0) with the sentinel
repulsion point. -/
theorem damping_geometric_decay_witness :
    ¬ repulsionActive 9999 9999 ⟨0, 0, 0⟩ ∧
    norm3 (particleSteps 1 9999 9999 none ⟨0, 0, 0⟩
      (⟨0, 0, 0⟩, ⟨1, 0, 0⟩, ⟨0, 0, 0⟩) 1).2.1 ≤ norm3 ⟨1, 0, 0⟩ * 0.88 ^ 1 := by
  have hna : ¬ repulsionActive 9999 9999 (⟨0, 0, 0⟩ : Vec3) := by
    rw [repulsionActive, distSqTo]
    norm_num
  refine ⟨hna, damping_geometric_decay 1 9999 9999 ⟨0, 0, 0⟩ ⟨0, 0, 0⟩ ⟨1, 0, 0⟩
    ⟨0, 0, 0⟩ 1 ?_⟩
  intro j hj
  interval_cases j
  simpa [particleSteps] using hna

/-- Velocity after one `tickParticle` with a valid target and an inactive
repulsion point: seek toward the raw target, then damping. -/
theorem tickParticle_velocity_seek (dt bx bpy : ℝ) (t tcol : Vec3) (p v c : Vec3)
    (hrep : ¬ repulsionActive bx bpy p) :
    (tickParticle dt bx bpy (some t) tcol p v c).2.1 =
      (0.88 : ℝ) • (v + (2.5 * dt) • (t - p)) := by
  rw [repulsionActive, distSqTo] at hrep
  simp only [tickParticle, interactStep, seekStep]
  rw [if_neg hrep]
  simp only [vec3_smul_def, vec3_add_def, vec3_sub_def, Vec3.mk.injEq]
  refine ⟨by ring, by ring, by ring⟩

theorem update_velocity_eq_tick (dt : ℝ) (rand : ℕ → TemplateRand) (s : SimState)
    (i : ℕ) :
    (update dt none rand s).velocities i =
      (tickParticle dt 9999 9999 (some (s.targetPositions i)) (s.targetColors i)
        (s.positions i) (s.velocities i) (s.colors i)).2.1 := rfl

/-- The sentinel pointer (9999, 9999) never activates the repulsion branch
for a particle within ±1000 on the x axis. -/
theorem sentinel_not_active (p : Vec3) (hx : |p.x| ≤ 1000) :
    ¬ repulsionActive 9999 9999 p := by
  rw [repulsionActive, distSqTo]
  intro hcon
  obtain ⟨hlt, _⟩ := hcon
  have hx2 := (abs_le.mp hx).2
  nlinarith [mul_self_nonneg (9999 - p.x - 8999), mul_self_nonneg (9999 - p.y),
    mul_self_nonneg (0 - p.z)]

/-- C1 (amended): in a tick with no snapshot, for each particle the velocity
becomes `0.88 · (v + (targetPosition − position)·2.5·dt)`: the seek step adds
`(targetPosition − position)·seekGain·dt` with `seekGain = 2.5`, without any
expansion-factor scaling of the target (the expansion factor only scales
rendered positions in the vertex shader); a particle with an invalid target
skips the seek. -/
theorem seek_adds_unscaled_target (dt : ℝ) (rand : ℕ → TemplateRand) (s : SimState)
    (i : ℕ) (hx : |(s.positions i).x| ≤ 1000) :
    (update dt none rand s).velocities i =
      (0.88 : ℝ) • (s.velocities i +
        (2.5 * dt) • (s.targetPositions i - s.positions i)) ∧
    seekStep dt none (s.positions i) (s.velocities i) = s.velocities i := by
  refine ⟨?_, rfl⟩
  rw [update_velocity_eq_tick]
  exact tickParticle_velocity_seek dt 9999 9999 _ _ _ _ _
    (sentinel_not_active _ hx)

/-- Witness for C1's amended statement at a concrete state. -/
theorem seek_adds_unscaled_target_witness :
    |((initState.positions 0).x : ℝ)| ≤ 1000 ∧
    (update 1 none zeroRand initState).velocities 0 =
      (0.88 : ℝ) • (initState.velocities 0 +
        ((2.5 : ℝ) * 1) • (initState.targetPositions 0 - initState.positions 0)) := by
  constructor
  · show |(0 : ℝ)| ≤ 1000
    norm_num
  · exact (seek_adds_unscaled_target 1 zeroRand initState 0
      (by show |(0 : ℝ)| ≤ 1000; norm_num)).1

/-- The claim's version of the seek step, modelled from the spec's words:
`velocity += (targetPosition·expansionFactor − position)·seekGain·dt`. It is
compared against the embedded integrator, which does not use the expansion
factor. -/
def seekVelocityClaimed (expansion dt : ℝ) (t p v : Vec3) : Vec3 :=
  v + (2.5 * dt) • ((expansion • t) - p)

/-- A state with expansion factor 0.5 and target (1,0,0) for every particle,
on which the claimed and actual seek differ. -/
def cexSeekState : SimState :=
  { initState with uExpansion := 0.5, targetPositions := fun _ => ⟨1, 0, 0⟩ }

/-- Counterexample to C1 as stated: with expansion factor 0.5 (and 0.515
after this tick's smoothing), the integrator produces velocity x-component
0.22 = 0.88·(1 − 0)·2.5·0.1, while the spec's formula predicts
0.88·(expansionFactor·1 − 0)·2.5·0.1, which differs for either reading of
the expansion factor. -/
theorem seek_expansion_counterexample :
    ((update 0.1 none zeroRand cexSeekState).velocities 0).x = 0.22 ∧
    (update 0.1 none zeroRand cexSeekState).uExpansion = 0.515 ∧
    ((0.88 : ℝ) • seekVelocityClaimed
      (update 0.1 none zeroRand cexSeekState).uExpansion 0.1
      ⟨1, 0, 0⟩ ⟨0, 0, 0⟩ ⟨0, 0, 0⟩).x ≠ 0.22 ∧
    ((0.88 : ℝ) • seekVelocityClaimed cexSeekState.uExpansion 0.1
      ⟨1, 0, 0⟩ ⟨0, 0, 0⟩ ⟨0, 0, 0⟩).x ≠ 0.22 := by
  have hexp : (update 0.1 none zeroRand cexSeekState).uExpansion
      = 0.5 + (1.0 - 0.5) * 0.03 := rfl
  have hrep0 : ¬ repulsionActive 9999 9999 (cexSeekState.positions 0) := by
    have hpos : cexSeekState.positions 0 = ⟨0, 0, 0⟩ := rfl
    rw [hpos, repulsionActive, distSqTo]
    norm_num
  have hv := tickParticle_velocity_seek 0.1 9999 9999 (cexSeekState.targetPositions 0)
    (cexSeekState.targetColors 0) (cexSeekState.positions 0) (cexSeekState.velocities 0)
    (cexSeekState.colors 0) hrep0
  refine ⟨?_, ?_, ?_, ?_⟩
  · rw [update_velocity_eq_tick, hv]
    simp only [vec3_smul_def, vec3_add_def, vec3_sub_def]
    norm_num [cexSeekState, initState]
  · rw [hexp]
    norm_num
  · rw [hexp]
    simp only [seekVelocityClaimed, vec3_smul_def, vec3_add_def, vec3_sub_def]
    norm_num
  · show ((0.88 : ℝ) • seekVelocityClaimed 0.5 0.1 ⟨1, 0, 0⟩ ⟨0, 0, 0⟩ ⟨0, 0, 0⟩).x ≠ 0.22
    simp only [seekVelocityClaimed, vec3_smul_def, vec3_add_def, vec3_sub_def]
    norm_num

/-- C4: in each tick exactly one of the two exclusive branches runs, decided
by the squared distance to the repulsion point (z compared to 0): inside
(0.01, 50) the velocity gains a force along the outward normal
`(p − b)/dist` of magnitude `(7 − dist)·3.0` scaled by `dt·6` and every
current color channel is boosted by 0.15 and clamped at 1; otherwise each
color channel moves toward the target color by the fraction 0.025 and no
force is applied. -/
theorem repulsion_branch_exclusive (dt bx bpy : ℝ) (target : Option Vec3)
    (tcol p v c : Vec3) :
    (repulsionActive bx bpy p →
      (tickParticle dt bx bpy target tcol p v c).2.1 =
        (0.88 : ℝ) • (seekStep dt target p v +
          ((7 - Real.sqrt (distSqTo bx bpy p)) * 3.0 * (dt * 6) /
              Real.sqrt (distSqTo bx bpy p)) •
            (p - ⟨bx, bpy, 0⟩)) ∧
      (tickParticle dt bx bpy target tcol p v c).2.2 =
        ⟨min 1 (c.x + 0.15), min 1 (c.y + 0.15), min 1 (c.z + 0.15)⟩) ∧
    (¬ repulsionActive bx bpy p →
      (tickParticle dt bx bpy target tcol p v c).2.1 =
        (0.88 : ℝ) • seekStep dt target p v ∧
      (tickParticle dt bx bpy target tcol p v c).2.2 =
        ⟨c.x + (tcol.x - c.x) * 0.025, c.y + (tcol.y - c.y) * 0.025,
          c.z + (tcol.z - c.z) * 0.025⟩) := by
  constructor
  · intro hact
    rw [repulsionActive, distSqTo] at hact
    simp only [tickParticle, interactStep, distSqTo]
    rw [if_pos hact]
    constructor
    · simp only [vec3_smul_def, vec3_add_def, vec3_sub_def, Vec3.mk.injEq]
      refine ⟨by ring, by ring, by ring⟩
    · rfl
  · intro hina
    rw [repulsionActive, distSqTo] at hina
    simp only [tickParticle, interactStep, distSqTo]
    rw [if_neg hina]
    constructor
    · simp only [vec3_smul_def, Vec3.mk.injEq]
      refine ⟨by ring, by ring, by ring⟩
    · rfl

/-- Witness for C4: at squared distance 9 the repulsion branch is active and
boosts the current color channels by 0.15 with the clamp at 1. -/
theorem repulsion_branch_exclusive_witness :
    repulsionActive 3 0 ⟨0, 0, 0⟩ ∧
    (tickParticle 1 3 0 none ⟨0, 0, 0⟩ ⟨0, 0, 0⟩ ⟨0, 0, 0⟩ ⟨0.2, 0.5, 1.0⟩).2.2 =
      ⟨min 1 ((0.2 : ℝ) + 0.15), min 1 ((0.5 : ℝ) + 0.15), min 1 ((1.0 : ℝ) + 0.15)⟩ := by
  have hact : repulsionActive 3 0 ⟨0, 0, 0⟩ := by
    rw [repulsionActive, distSqTo]
    norm_num
  exact ⟨hact, ((repulsion_branch_exclusive 1 3 0 none ⟨0, 0, 0⟩ ⟨0, 0, 0⟩ ⟨0, 0, 0⟩
    ⟨0.2, 0.5, 1.0⟩).1 hact).2⟩

/-! ## Color-bound lemmas -/

/-- Every channel of every entry of every palette is at most 1. -/
theorem palette_channels_le_one (name : String) (c : Vec3)
    (hc : c ∈ paletteOf name) : c.x ≤ 1 ∧ c.y ≤ 1 ∧ c.z ≤ 1 := by
  unfold paletteOf shapeColorsOf at hc
  split_ifs at hc <;>
    simp only [Option.getD_some, Option.getD_none, heartColors, flowerColors,
      saturnColors, fireworksColors, galaxyColors, dnaColors, starColors,
      tornadoColors, sphereColors, List.mem_cons, List.not_mem_nil, or_false] at hc <;>
    rcases hc with rfl | rfl | rfl | rfl <;>
    norm_num

theorem paletteOf_length (name : String) : (paletteOf name).length = 4 := by
  unfold paletteOf shapeColorsOf
  split_ifs <;> rfl

theorem list_getD_mem {α : Type} (l : List α) (k : ℕ) (d : α) (hk : k < l.length) :
    l.getD k d ∈ l := by
  rw [List.getD_eq_getElem l d hk]
  exact List.getElem_mem hk

/-- Channels at most 1 for every color and target color of a state. -/
def colorChannelsLE1 (s : SimState) : Prop :=
  ∀ i, (s.colors i).x ≤ 1 ∧ (s.colors i).y ≤ 1 ∧ (s.colors i).z ≤ 1 ∧
    (s.targetColors i).x ≤ 1 ∧ (s.targetColors i).y ≤ 1 ∧ (s.targetColors i).z ≤ 1

theorem setTemplate_preserves_le1 (name : String) (rand : ℕ → TemplateRand)
    (s : SimState) (h : colorChannelsLE1 s) : colorChannelsLE1 (setTemplate name rand s) := by
  unfold colorChannelsLE1 at h ⊢
  unfold setTemplate
  rcases parametric name with _ | gen
  · exact h
  · intro i
    exact ⟨(h i).1, (h i).2.1, (h i).2.2.1,
      min_le_left _ _, min_le_left _ _, min_le_left _ _⟩

theorem gestureStep_preserves_le1 (rand : ℕ → TemplateRand) (g : Gestures)
    (s : SimState) (h : colorChannelsLE1 s) :
    colorChannelsLE1 (gestureTemplateStep rand g s) := by
  unfold gestureTemplateStep
  split_ifs <;> first
    | exact setTemplate_preserves_le1 _ rand s h
    | exact h

/-- The color written by `interactStep` stays at most 1 per channel when the
current and target colors are. -/
theorem interactStep_color_le_one (dt bx bpy : ℝ) (tcol p v c : Vec3)
    (hc : c.x ≤ 1 ∧ c.y ≤ 1 ∧ c.z ≤ 1) (ht : tcol.x ≤ 1 ∧ tcol.y ≤ 1 ∧ tcol.z ≤ 1) :
    ((interactStep dt bx bpy tcol p v c).2).x ≤ 1 ∧
    ((interactStep dt bx bpy tcol p v c).2).y ≤ 1 ∧
    ((interactStep dt bx bpy tcol p v c).2).z ≤ 1 := by
  simp only [interactStep]
  split_ifs with hcond
  · exact ⟨min_le_left _ _, min_le_left _ _, min_le_left _ _⟩
  · refine ⟨?_, ?_, ?_⟩
    · show c.x + (tcol.x - c.x) * 0.025 ≤ 1
      nlinarith [hc.1, ht.1]
    · show c.y + (tcol.y - c.y) * 0.025 ≤ 1
      nlinarith [hc.2.1, ht.2.1]
    · show c.z + (tcol.z - c.z) * 0.025 ≤ 1
      nlinarith [hc.2.2, ht.2.2]

theorem update_colors_eq (dt : ℝ) (gOpt : Option Gestures) (rand : ℕ → TemplateRand)
    (s : SimState) (i : ℕ) :
    (update dt gOpt rand s).colors i =
      (interactStep dt (pointerBx (gOpt.getD emptyGestures))
        (pointerBy (gOpt.getD emptyGestures))
        ((gestureTemplateStep rand (gOpt.getD emptyGestures)
          { s with time := s.time + dt }).targetColors i)
        ((gestureTemplateStep rand (gOpt.getD emptyGestures)
          { s with time := s.time + dt }).positions i)
        (seekStep dt
          (some ((gestureTemplateStep rand (gOpt.getD emptyGestures)
            { s with time := s.time + dt }).targetPositions i))
          ((gestureTemplateStep rand (gOpt.getD emptyGestures)
            { s with time := s.time + dt }).positions i)
          ((gestureTemplateStep rand (gOpt.getD emptyGestures)
            { s with time := s.time + dt }).velocities i))
        ((gestureTemplateStep rand (gOpt.getD emptyGestures)
          { s with time := s.time + dt }).colors i)).2 := rfl

theorem update_preserves_le1 (dt : ℝ) (gOpt : Option Gestures)
    (rand : ℕ → TemplateRand) (s : SimState) (h : colorChannelsLE1 s) :
    colorChannelsLE1 (update dt gOpt rand s) := by
  have h2 : colorChannelsLE1 (gestureTemplateStep rand (gOpt.getD emptyGestures)
      { s with time := s.time + dt }) :=
    gestureStep_preserves_le1 rand _ _ (fun i => h i)
  intro i
  have hcol := interactStep_color_le_one dt (pointerBx (gOpt.getD emptyGestures))
    (pointerBy (gOpt.getD emptyGestures))
    ((gestureTemplateStep rand (gOpt.getD emptyGestures)
      { s with time := s.time + dt }).targetColors i)
    ((gestureTemplateStep rand (gOpt.getD emptyGestures)
      { s with time := s.time + dt }).positions i)
    (seekStep dt
      (some ((gestureTemplateStep rand (gOpt.getD emptyGestures)
        { s with time := s.time + dt }).targetPositions i))
      ((gestureTemplateStep rand (gOpt.getD emptyGestures)
        { s with time := s.time + dt }).positions i)
      ((gestureTemplateStep rand (gOpt.getD emptyGestures)
        { s with time := s.time + dt }).velocities i))
    ((gestureTemplateStep rand (gOpt.getD emptyGestures)
      { s with time := s.time + dt }).colors i)
    ⟨(h2 i).1, (h2 i).2.1, (h2 i).2.2.1⟩
    ⟨(h2 i).2.2.2.1, (h2 i).2.2.2.2.1, (h2 i).2.2.2.2.2⟩
  refine ⟨?_, ?_, ?_, ?_, ?_, ?_⟩
  · rw [update_colors_eq]
    exact hcol.1
  · rw [update_colors_eq]
    exact hcol.2.1
  · rw [update_colors_eq]
    exact hcol.2.2
  · exact (h2 i).2.2.2.1
  · exact (h2 i).2.2.2.2.1
  · exact (h2 i).2.2.2.2.2

theorem cycleColors_preserves_le1 (s : SimState) (h : colorChannelsLE1 s) :
    colorChannelsLE1 (cycleColors s) := by
  intro i
  refine ⟨(h i).1, (h i).2.1, (h i).2.2.1, ?_, ?_, ?_⟩
  · exact min_le_left _ _
  · have hk : (i + s.colorPaletteIndex) % (paletteOf s.currentTemplate).length <
        (paletteOf s.currentTemplate).length := by
      rw [paletteOf_length]
      omega
    exact (palette_channels_le_one s.currentTemplate _
      (list_getD_mem _ _ ⟨0, 0, 0⟩ hk)).2.1
  · exact min_le_left _ _

/-- C2 (amended): after `setTemplate`, `update` and `cycleColors`, every
channel of every particle's color and target color is at most 1 — the code
clamps at the upper bound only (`Math.min(1, ·)`); there is no lower clamp,
so channels can fall below 0. -/
theorem color_channels_clamped_above_only (name : String) (dt : ℝ)
    (gOpt : Option Gestures) (rand : ℕ → TemplateRand) (s : SimState) :
    (colorChannelsLE1 s → colorChannelsLE1 (setTemplate name rand s)) ∧
    (colorChannelsLE1 s → colorChannelsLE1 (update dt gOpt rand s)) ∧
    (colorChannelsLE1 s → colorChannelsLE1 (cycleColors s)) :=
  ⟨setTemplate_preserves_le1 name rand s,
    update_preserves_le1 dt gOpt rand s,
    cycleColors_preserves_le1 s⟩

/-- Witness for C2's amended statement at the constructor state. -/
theorem color_channels_clamped_above_only_witness :
    colorChannelsLE1 initState ∧ colorChannelsLE1 (setTemplate "dna" zeroRand initState) := by
  have h0 : colorChannelsLE1 initState := by
    intro i
    refine ⟨?_, ?_, ?_, ?_, ?_, ?_⟩ <;> norm_num [initState]
  exact ⟨h0, (color_channels_clamped_above_only "dna" 0 none zeroRand initState).1 h0⟩

/-- Counterexample to C2 as stated: `setTemplate("dna")` with a zero draw of
the color variation writes target-color channel `0 + (0 − 0.5)·0.1 = −0.05`,
which is below 0 — the lower bound is not enforced. -/
theorem color_below_zero_counterexample :
    ((setTemplate "dna" zeroRand initState).targetColors 0).x < 0 := by
  have hx : ((setTemplate "dna" zeroRand initState).targetColors 0).x
      = min 1 ((0 : ℝ) + ((0 : ℝ) - 0.5) * 0.1) := rfl
  rw [hx, min_def]
  norm_num

/-- A state on template "heart" whose palette cycle index is already 1. -/
def heartCycleState : SimState :=
  { initState with currentTemplate := "heart", colorPaletteIndex := 1 }

/-- Counterexample to C6 as stated: at cycle index 1 the green channel of
particle 0 is taken from `palette[(0 + 1) mod 4]` (0.35), not from
`palette[0 mod 4]` (0.15) as the claim's base-color formula demands. -/
theorem cycle_palette_shift_counterexample :
    ((cycleColors heartCycleState).targetColors 0).y = 0.35 ∧
    ((paletteOf "heart").getD (0 % (paletteOf "heart").length) ⟨0, 0, 0⟩).y = 0.15 ∧
    (0.35 : ℝ) ≠ 0.15 := by
  refine ⟨rfl, rfl, by norm_num⟩

/-- C6 (amended): `cycleColors` derives particle i's target color at cycle
index k from the base color `palette[(i + k) mod paletteLength]` — the base
index is shifted by the cycle index — with the red/blue channels given by the
2D rotation of the base (r, b) pair by the angle `0.25·k` (then clamped above
at 1) and the green channel taken unmodified from that base color; the
unclamped (r, b) map is a genuine rotation (it preserves `r² + b²`). -/
theorem cycle_colors_formula (s : SimState) (i : ℕ) :
    ((cycleColors s).targetColors i =
      ⟨min 1 (((paletteOf s.currentTemplate).getD
            ((i + s.colorPaletteIndex) % (paletteOf s.currentTemplate).length)
            ⟨0, 0, 0⟩).x * Real.cos ((s.colorPaletteIndex : ℝ) * 0.25)
          + ((paletteOf s.currentTemplate).getD
            ((i + s.colorPaletteIndex) % (paletteOf s.currentTemplate).length)
            ⟨0, 0, 0⟩).z * Real.sin ((s.colorPaletteIndex : ℝ) * 0.25)),
        ((paletteOf s.currentTemplate).getD
          ((i + s.colorPaletteIndex) % (paletteOf s.currentTemplate).length)
          ⟨0, 0, 0⟩).y,
        min 1 (((paletteOf s.currentTemplate).getD
            ((i + s.colorPaletteIndex) % (paletteOf s.currentTemplate).length)
            ⟨0, 0, 0⟩).z * Real.cos ((s.colorPaletteIndex : ℝ) * 0.25)
          - ((paletteOf s.currentTemplate).getD
            ((i + s.colorPaletteIndex) % (paletteOf s.currentTemplate).length)
            ⟨0, 0, 0⟩).x * Real.sin ((s.colorPaletteIndex : ℝ) * 0.25))⟩) ∧
    ∀ r b a : ℝ,
      (r * Real.cos a + b * Real.sin a) ^ 2 + (b * Real.cos a - r * Real.sin a) ^ 2 =
        r ^ 2 + b ^ 2 := by
  constructor
  · rfl
  · intro r b a
    linear_combination (r ^ 2 + b ^ 2) * Real.sin_sq_add_cos_sq a

/-! ## Sphere-template bounds -/

theorem sq_le_of_abs_le_015 (t : ℝ) (h : |t| ≤ 0.15) : t ^ 2 ≤ 0.0225 := by
  have e := abs_le.mp h
  nlinarith [e.1, e.2]

theorem le_26_of_sq_le (d : ℝ) (h : d ^ 2 ≤ 0.0675) : d ≤ 0.26 := by
  nlinarith [sq_nonneg (d - 0.26)]

theorem mul_le_of_radius_bounds (r d : ℝ) (hr0 : 0 ≤ r) (hr15 : r ≤ 15)
    (hd : d ≤ 0.26) : r * d ≤ 15 * 0.26 := by
  rcases le_or_lt 0 d with hpos | hneg
  · have t1 : r * d ≤ 15 * d := mul_le_mul_of_nonneg_right hr15 hpos
    have t2 : 15 * d ≤ 15 * 0.26 := by linarith
    linarith
  · have t1 : r * d ≤ 0 := mul_nonpos_of_nonneg_of_nonpos hr0 (le_of_lt hneg)
    linarith

/-- A point `r·(a, b, cc)` on a sphere of radius `r ≤ 15` moved by a jitter
of at most 0.15 per axis stays within Euclidean distance 15.3 of the
origin. -/
theorem norm3_radial_jitter_le (r a b cc j1 j2 j3 : ℝ)
    (hr0 : 0 ≤ r) (hr15 : r ≤ 15)
    (hunit : a ^ 2 + b ^ 2 + cc ^ 2 = 1)
    (hj1 : |j1| ≤ 0.15) (hj2 : |j2| ≤ 0.15) (hj3 : |j3| ≤ 0.15) :
    Real.sqrt ((r * a + j1) ^ 2 + (r * b + j2) ^ 2 + (r * cc + j3) ^ 2) ≤ 15.3 := by
  have s1 := sq_le_of_abs_le_015 j1 hj1
  have s2 := sq_le_of_abs_le_015 j2 hj2
  have s3 := sq_le_of_abs_le_015 j3 hj3
  have hjs : j1 ^ 2 + j2 ^ 2 + j3 ^ 2 ≤ 0.0675 := by linarith
  have hlag : (a * j1 + b * j2 + cc * j3) ^ 2
      = (a ^ 2 + b ^ 2 + cc ^ 2) * (j1 ^ 2 + j2 ^ 2 + j3 ^ 2)
        - ((a * j2 - b * j1) ^ 2 + (a * j3 - cc * j1) ^ 2 + (b * j3 - cc * j2) ^ 2) := by
    ring
  have hd2 : (a * j1 + b * j2 + cc * j3) ^ 2 ≤ 0.0675 := by
    rw [hlag, hunit, one_mul]
    linarith [sq_nonneg (a * j2 - b * j1), sq_nonneg (a * j3 - cc * j1),
      sq_nonneg (b * j3 - cc * j2)]
  have hrd : r * (a * j1 + b * j2 + cc * j3) ≤ 15 * 0.26 :=
    mul_le_of_radius_bounds r _ hr0 hr15 (le_26_of_sq_le _ hd2)
  have hrr : r ^ 2 ≤ 225 := by nlinarith [hr0, hr15]
  have hsum : (r * a + j1) ^ 2 + (r * b + j2) ^ 2 + (r * cc + j3) ^ 2 ≤ 15.3 ^ 2 := by
    have hexp : (r * a + j1) ^ 2 + (r * b + j2) ^ 2 + (r * cc + j3) ^ 2
        = r ^ 2 * (a ^ 2 + b ^ 2 + cc ^ 2)
          + 2 * (r * (a * j1 + b * j2 + cc * j3)) + (j1 ^ 2 + j2 ^ 2 + j3 ^ 2) := by
      ring
    rw [hexp, hunit, mul_one]
    linarith [hrd, hjs, hrr]
  calc Real.sqrt ((r * a + j1) ^ 2 + (r * b + j2) ^ 2 + (r * cc + j3) ^ 2)
      ≤ Real.sqrt (15.3 ^ 2) := Real.sqrt_le_sqrt hsum
    _ = 15.3 := Real.sqrt_sq (by norm_num)

/-- The spherical direction used by `sphereGen` is a unit vector. -/
theorem sphere_direction_unit (u v : ℝ) :
    (Real.sin (v * Real.pi) * Real.cos (u * Real.pi * 2)) ^ 2
      + (Real.sin (v * Real.pi) * Real.sin (u * Real.pi * 2)) ^ 2
      + (Real.cos (v * Real.pi)) ^ 2 = 1 := by
  have hA := Real.sin_sq_add_cos_sq (v * Real.pi)
  have hB := Real.sin_sq_add_cos_sq (u * Real.pi * 2)
  linear_combination (Real.sin (v * Real.pi)) ^ 2 * hB + hA

/-- A jittered `sphereGen` point has Euclidean norm at most 15 + 0.3. -/
theorem sphere_target_norm (u v : ℝ) (rnd : ℕ → ℝ) (jx jy jz : ℝ)
    (h0 : 0 ≤ rnd 0) (h1 : rnd 0 ≤ 1)
    (hjx0 : 0 ≤ jx) (hjx1 : jx ≤ 1) (hjy0 : 0 ≤ jy) (hjy1 : jy ≤ 1)
    (hjz0 : 0 ≤ jz) (hjz1 : jz ≤ 1) :
    norm3 ⟨(sphereGen u v rnd).x + (jx - 0.5) * 0.3,
      (sphereGen u v rnd).y + (jy - 0.5) * 0.3,
      (sphereGen u v rnd).z + (jz - 0.5) * 0.3⟩ ≤ 15 + 0.3 := by
  have hcbrt0 : 0 ≤ cbrt (rnd 0) := Real.rpow_nonneg h0 _
  have hcbrt1 : cbrt (rnd 0) ≤ 1 := Real.rpow_le_one h0 h1 (by norm_num)
  have hr0' : 0 ≤ 15 * cbrt (rnd 0) := by linarith
  have hr15 : 15 * cbrt (rnd 0) ≤ 15 := by linarith
  have habs : ∀ t : ℝ, 0 ≤ t → t ≤ 1 → |(t - 0.5) * 0.3| ≤ 0.15 := by
    intro t ht0 ht1
    rw [abs_le]
    constructor <;> nlinarith
  have hmain := norm3_radial_jitter_le (15 * cbrt (rnd 0))
    (Real.sin (v * Real.pi) * Real.cos (u * Real.pi * 2))
    (Real.sin (v * Real.pi) * Real.sin (u * Real.pi * 2))
    (Real.cos (v * Real.pi))
    ((jx - 0.5) * 0.3) ((jy - 0.5) * 0.3) ((jz - 0.5) * 0.3)
    hr0' hr15 (sphere_direction_unit u v)
    (habs jx hjx0 hjx1) (habs jy hjy0 hjy1) (habs jz hjz0 hjz1)
  have h153 : (15 : ℝ) + 0.3 = 15.3 := by norm_num
  rw [h153, norm3]
  have hargeq : ((⟨(sphereGen u v rnd).x + (jx - 0.5) * 0.3,
        (sphereGen u v rnd).y + (jy - 0.5) * 0.3,
        (sphereGen u v rnd).z + (jz - 0.5) * 0.3⟩ : Vec3).x) ^ 2
      + ((⟨(sphereGen u v rnd).x + (jx - 0.5) * 0.3,
        (sphereGen u v rnd).y + (jy - 0.5) * 0.3,
        (sphereGen u v rnd).z + (jz - 0.5) * 0.3⟩ : Vec3).y) ^ 2
      + ((⟨(sphereGen u v rnd).x + (jx - 0.5) * 0.3,
        (sphereGen u v rnd).y + (jy - 0.5) * 0.3,
        (sphereGen u v rnd).z + (jz - 0.5) * 0.3⟩ : Vec3).z) ^ 2
      = (15 * cbrt (rnd 0) * (Real.sin (v * Real.pi) * Real.cos (u * Real.pi * 2))
          + (jx - 0.5) * 0.3) ^ 2
        + (15 * cbrt (rnd 0) * (Real.sin (v * Real.pi) * Real.sin (u * Real.pi * 2))
          + (jy - 0.5) * 0.3) ^ 2
        + (15 * cbrt (rnd 0) * Real.cos (v * Real.pi) + (jz - 0.5) * 0.3) ^ 2 := by
    simp only [sphereGen]
    ring
  rw [hargeq]
  exact hmain

/-- A clamped value `min 1 (c + d)` with `|d| ≤ 0.05` and `c ≤ 1` stays
within 0.1 of `c` and at most 1. -/
theorem min_clamp_close (c d : ℝ) (hc : c ≤ 1) (hd1 : -0.05 ≤ d) (hd2 : d ≤ 0.05) :
    |min 1 (c + d) - c| ≤ 0.1 ∧ min 1 (c + d) ≤ 1 := by
  constructor
  · rw [abs_le]
    rcases min_cases 1 (c + d) with ⟨h1, h2⟩ | ⟨h1, h2⟩ <;> rw [h1] <;>
      constructor <;> linarith
  · exact min_le_left _ _

/-- C8: after `setTemplate("sphere")` each target position has Euclidean
norm at most 15 plus the 0.3 jitter bound, and each target-color channel is
within ±0.1 of the matching channel of the sphere palette entry
`palette[i mod 4]` and at most 1 — for every value the random source can
draw. -/
theorem sphere_template_bounds (rand : ℕ → TemplateRand) (s : SimState) (i : ℕ)
    (hr0 : 0 ≤ (rand i).rnd 0) (hr1 : (rand i).rnd 0 ≤ 1)
    (hjx0 : 0 ≤ (rand i).jx) (hjx1 : (rand i).jx ≤ 1)
    (hjy0 : 0 ≤ (rand i).jy) (hjy1 : (rand i).jy ≤ 1)
    (hjz0 : 0 ≤ (rand i).jz) (hjz1 : (rand i).jz ≤ 1)
    (hcr0 : 0 ≤ (rand i).cr) (hcr1 : (rand i).cr ≤ 1)
    (hcg0 : 0 ≤ (rand i).cg) (hcg1 : (rand i).cg ≤ 1)
    (hcb0 : 0 ≤ (rand i).cb) (hcb1 : (rand i).cb ≤ 1) :
    norm3 ((setTemplate "sphere" rand s).targetPositions i) ≤ 15 + 0.3 ∧
    (|((setTemplate "sphere" rand s).targetColors i).x -
        (sphereColors.getD (i % 4) ⟨0, 0, 0⟩).x| ≤ 0.1 ∧
      ((setTemplate "sphere" rand s).targetColors i).x ≤ 1) ∧
    (|((setTemplate "sphere" rand s).targetColors i).y -
        (sphereColors.getD (i % 4) ⟨0, 0, 0⟩).y| ≤ 0.1 ∧
      ((setTemplate "sphere" rand s).targetColors i).y ≤ 1) ∧
    (|((setTemplate "sphere" rand s).targetColors i).z -
        (sphereColors.getD (i % 4) ⟨0, 0, 0⟩).z| ≤ 0.1 ∧
      ((setTemplate "sphere" rand s).targetColors i).z ≤ 1) := by
  have hposeq : (setTemplate "sphere" rand s).targetPositions i =
      ⟨(sphereGen (rand i).u (rand i).v (rand i).rnd).x + ((rand i).jx - 0.5) * 0.3,
        (sphereGen (rand i).u (rand i).v (rand i).rnd).y + ((rand i).jy - 0.5) * 0.3,
        (sphereGen (rand i).u (rand i).v (rand i).rnd).z + ((rand i).jz - 0.5) * 0.3⟩ := rfl
  have hcoleq : (setTemplate "sphere" rand s).targetColors i =
      ⟨min 1 ((sphereColors.getD (i % 4) ⟨0, 0, 0⟩).x + ((rand i).cr - 0.5) * 0.1),
        min 1 ((sphereColors.getD (i % 4) ⟨0, 0, 0⟩).y + ((rand i).cg - 0.5) * 0.1),
        min 1 ((sphereColors.getD (i % 4) ⟨0, 0, 0⟩).z + ((rand i).cb - 0.5) * 0.1)⟩ := rfl
  have h4 : i % 4 = 0 ∨ i % 4 = 1 ∨ i % 4 = 2 ∨ i % 4 = 3 := by omega
  have hcle : (sphereColors.getD (i % 4) (⟨0, 0, 0⟩ : Vec3)).x ≤ 1 ∧
      (sphereColors.getD (i % 4) (⟨0, 0, 0⟩ : Vec3)).y ≤ 1 ∧
      (sphereColors.getD (i % 4) (⟨0, 0, 0⟩ : Vec3)).z ≤ 1 := by
    rcases h4 with h | h | h | h <;> rw [h] <;> norm_num [sphereColors]
  refine ⟨?_, ?_, ?_, ?_⟩
  · rw [hposeq]
    exact sphere_target_norm (rand i).u (rand i).v (rand i).rnd
      (rand i).jx (rand i).jy (rand i).jz hr0 hr1 hjx0 hjx1 hjy0 hjy1 hjz0 hjz1
  · rw [hcoleq]
    exact min_clamp_close _ _ hcle.1 (by nlinarith) (by nlinarith)
  · rw [hcoleq]
    exact min_clamp_close _ _ hcle.2.1 (by nlinarith) (by nlinarith)
  · rw [hcoleq]
    exact min_clamp_close _ _ hcle.2.2 (by nlinarith) (by nlinarith)

/-- Witness for C8 with every draw equal to 0.5, at particle 0. -/
theorem sphere_template_bounds_witness :
    (0 ≤ (halfRand 0).rnd 0 ∧ (halfRand 0).rnd 0 ≤ 1) ∧
    norm3 ((setTemplate "sphere" halfRand initState).targetPositions 0) ≤ 15 + 0.3 ∧
    ((setTemplate "sphere" halfRand initState).targetColors 0).x ≤ 1 := by
  have hb : (0 : ℝ) ≤ 0.5 ∧ (0.5 : ℝ) ≤ 1 := by norm_num
  have h := sphere_template_bounds halfRand initState 0
    hb.1 hb.2 hb.1 hb.2 hb.1 hb.2 hb.1 hb.2 hb.1 hb.2 hb.1 hb.2 hb.1 hb.2
  exact ⟨⟨hb.1, hb.2⟩, h.1, h.2.1.2⟩

end

end PartSys
